import Mathlib

/-!
Shallow embedding of `poium/webdriver.py` (class `Page`).

Each wrapper method of the `Page` class is modelled as a Lean function over a
mock `Driver` record.  A method's observable behaviour is its returned value
(`Except PyError α`, errors standing for raised Python exceptions) together
with the list of `Effect`s it issues to the wrapped driver (and the explicit
sleeps it performs), in order.
-/

namespace Poium

/-- Python values that flow through the wrappers (cookies, script results). -/
inductive PyObj where
  | pyNone
  | str (s : String)
  | int (n : Int)
  | dict (entries : List (String × String))
  deriving DecidableEq, Repr

/-- An argument that may be a Python list (needed for the `isinstance` checks
of `add_cookie` / `add_cookies`). -/
inductive PyArg where
  | obj (o : PyObj)
  | list (xs : List PyObj)
  deriving DecidableEq, Repr

def PyObj.isDict : PyObj → Bool
  | PyObj.dict _ => true
  | _ => false

def PyArg.isDict : PyArg → Bool
  | PyArg.obj o => o.isDict
  | PyArg.list _ => false

def PyArg.isList : PyArg → Bool
  | PyArg.list _ => true
  | _ => false

/-- Python exceptions appearing in the module. -/
inductive PyError where
  | valueError (msg : String)
  | typeError (msg : String)
  | nameError (msg : String)
  | indexError
  | noAlertPresent
  | webDriverError (msg : String)
  deriving DecidableEq, Repr

/-- A positional argument of the (buggy) `driver.set_window_size(self, width, height)`
call: either the page object itself or a width/height value. -/
inductive SWSArg where
  | pageObject
  | value (v : Option Int)
  deriving DecidableEq, Repr

/-- One entry of a W3C pointer-input action sequence. -/
inductive PointerAction where
  | moveTo (x y : Int)
  | down
  | pause (duration : ℚ)
  | up
  deriving DecidableEq, Repr

/-- A call issued to the wrapped driver (or an explicit sleep). -/
inductive Effect where
  | executeScript (js : String) (args : List PyObj)
  | maximizeWindow
  | setWindowSize (args : List SWSArg)
  | switchToWindow (handle : String)
  | addCookie (cookie : List (String × String))
  | switchToContext (ctx : String)
  | alertAccess
  | performPointer (kind : String) (deviceName : String) (actions : List PointerAction)
  | sleep (sec : ℚ)
  deriving DecidableEq, Repr

/-- The mock driver: the state the wrappers read from `self.driver`. -/
structure Driver where
  current_context : String
  contexts : List String
  window_handles : List String
  alertResult : Except PyError Unit
  execResult : String → List PyObj → PyObj

/-- `headMatch need hay` : `need` is an initial run of `hay` (character lists). -/
def headMatch : List Char → List Char → Bool
  | [], _ => true
  | _ :: _, [] => false
  | a :: as, b :: bs => a == b && headMatch as bs

/-- `subChars need hay` : `need` occurs contiguously inside `hay`. -/
def subChars (need : List Char) : List Char → Bool
  | [] => need.isEmpty
  | c :: rest => headMatch need (c :: rest) || subChars need rest

/-- Python's `need in hay` test on strings. -/
def strContains (hay need : String) : Bool :=
  subChars need.data hay.data

/-- `Page.execute_script` (webdriver.py lines 20-27). -/
def execute_script (d : Driver) (js : Option String) (args : List PyObj) :
    Except PyError PyObj × List Effect :=
  match js with
  | Option.none => (Except.error (PyError.valueError "Please input js script"), [])
  | Option.some s => (Except.ok (d.execResult s args), [Effect.executeScript s args])

/-- `Page.set_window_size` (webdriver.py lines 59-74).  The source passes
`self` as an extra first positional argument to `driver.set_window_size`. -/
def set_window_size (_d : Driver) (width height : Option Int) : List Effect :=
  if width = Option.none ∧ height = Option.none then
    [Effect.maximizeWindow]
  else
    [Effect.setWindowSize [SWSArg.pageObject, SWSArg.value width, SWSArg.value height]]

/-- Python list indexing `xs[i]` with negative-index support; out of range
raises `IndexError`. -/
def pyIndex (xs : List String) (i : Int) : Except PyError String :=
  let j : Int := if 0 ≤ i then i else (xs.length : Int) + i
  if 0 ≤ j then
    match xs.get? j.toNat with
    | Option.some v => Except.ok v
    | Option.none => Except.error PyError.indexError
  else Except.error PyError.indexError

/-- `Page.switch_to_window` (webdriver.py lines 84-96). -/
def switch_to_window (d : Driver) (index : Int) : Except PyError Unit × List Effect :=
  match pyIndex d.window_handles index with
  | Except.ok h => (Except.ok (), [Effect.switchToWindow h])
  | Except.error e => (Except.error e, [])

/-- `Page.add_cookie` (webdriver.py lines 124-133). -/
def add_cookie (_d : Driver) (cookie_dict : PyArg) : Except PyError Unit × List Effect :=
  match cookie_dict with
  | PyArg.obj (PyObj.dict entries) => (Except.ok (), [Effect.addCookie entries])
  | _ => (Except.error (PyError.typeError "Wrong cookie type."), [])

/-- The `for cookie in cookie_list: self.add_cookie(cookie)` loop of
`Page.add_cookies`; a raised exception aborts the loop. -/
def add_cookies_loop (d : Driver) : List PyObj → Except PyError Unit × List Effect
  | [] => (Except.ok (), [])
  | c :: rest =>
    match add_cookie d (PyArg.obj c) with
    | (Except.ok _, tr) =>
      match add_cookies_loop d rest with
      | (res, tr2) => (res, tr ++ tr2)
    | (Except.error e, tr) => (Except.error e, tr)

/-- `Page.add_cookies` (webdriver.py lines 135-149). -/
def add_cookies (d : Driver) (cookie_list : PyArg) : Except PyError Unit × List Effect :=
  match cookie_list with
  | PyArg.list xs => add_cookies_loop d xs
  | _ => (Except.error (PyError.typeError "Wrong cookie type."), [])

/-- `Page.switch_to_app` (webdriver.py lines 165-172). -/
def switch_to_app (d : Driver) : List Effect :=
  if d.current_context ≠ "NATIVE_APP" then [Effect.switchToContext "NATIVE_APP"] else []

/-- `Page.switch_to_web` (webdriver.py lines 174-191). -/
def switch_to_web (d : Driver) (context : Option String) : Except PyError Unit × List Effect :=
  match context with
  | Option.some c => (Except.ok (), [Effect.switchToContext c])
  | Option.none =>
    if strContains d.current_context "WEBVIEW" then (Except.ok (), [])
    else
      match d.contexts.find? (fun c => strContains c "WEBVIEW") with
      | Option.some c => (Except.ok (), [Effect.switchToContext c])
      | Option.none => (Except.error (PyError.nameError "No WebView found."), [])

/-- `Page.switch_to_flutter` (webdriver.py lines 193-200). -/
def switch_to_flutter (d : Driver) : List Effect :=
  if d.current_context ≠ "FLUTTER" then [Effect.switchToContext "FLUTTER"] else []

/-- `Page.alert_is_display` (webdriver.py lines 236-246): `try` the alert
access, catch only `NoAlertPresentException`. -/
def alert_is_display (d : Driver) : Except PyError Bool × List Effect :=
  match d.alertResult with
  | Except.error PyError.noAlertPresent => (Except.ok false, [Effect.alertAccess])
  | Except.error e => (Except.error e, [Effect.alertAccess])
  | Except.ok _ => (Except.ok true, [Effect.alertAccess])

/-- selenium's `interaction.POINTER_TOUCH`. -/
def POINTER_TOUCH : String := "touch"

/-- The pointer part of selenium's `ActionBuilder`: successive gesture calls
append to the pointer-input action sequence. -/
structure ActionBuilder where
  pointerKind : String
  pointerDeviceName : String
  pointer_action : List PointerAction

def ActionBuilder.move_to_location (b : ActionBuilder) (x y : Int) : ActionBuilder :=
  { b with pointer_action := b.pointer_action ++ [PointerAction.moveTo x y] }

def ActionBuilder.pointer_down (b : ActionBuilder) : ActionBuilder :=
  { b with pointer_action := b.pointer_action ++ [PointerAction.down] }

def ActionBuilder.pause (b : ActionBuilder) (duration : ℚ) : ActionBuilder :=
  { b with pointer_action := b.pointer_action ++ [PointerAction.pause duration] }

def ActionBuilder.release (b : ActionBuilder) : ActionBuilder :=
  { b with pointer_action := b.pointer_action ++ [PointerAction.up] }

/-- `Page.top` (webdriver.py lines 278-290): build the touch gesture, perform
it, then sleep `sec`. -/
def top (_d : Driver) (x y : Int) (sec : ℚ) : List Effect :=
  let b0 : ActionBuilder :=
    { pointerKind := POINTER_TOUCH, pointerDeviceName := "touch", pointer_action := [] }
  let b1 := b0.move_to_location x y
  let b2 := b1.pointer_down
  let b3 := b2.pause (1/10)
  let b4 := b3.release
  [Effect.performPointer b4.pointerKind b4.pointerDeviceName b4.pointer_action,
   Effect.sleep sec]

/-- A concrete sample driver used for closed evaluations. -/
def dEx : Driver :=
  { current_context := "NATIVE_APP"
    contexts := ["NATIVE_APP", "WEBVIEW_com.example"]
    window_handles := ["h0", "h1", "h2"]
    alertResult := Except.error PyError.noAlertPresent
    execResult := fun _ _ => PyObj.pyNone }

/-- A sample driver whose alert access fails with a generic WebDriver error. -/
def dExWde : Driver :=
  { current_context := "NATIVE_APP"
    contexts := ["NATIVE_APP"]
    window_handles := ["h0"]
    alertResult := Except.error (PyError.webDriverError "boom")
    execResult := fun _ _ => PyObj.pyNone }

end Poium

namespace Poium

/-- First-match property of `List.find?` : a match preceded only by
non-matches is the one found. -/
theorem find?_first {α : Type} (p : α → Bool) (pre : List α) (c : α) (post : List α)
    (hpre : ∀ x ∈ pre, p x = false) (hc : p c = true) :
    (pre ++ c :: post).find? p = Option.some c := by
  induction pre with
  | nil => simp [List.find?, hc]
  | cons a as ih =>
    have ha : p a = false := hpre a (by simp)
    simpa [List.find?, ha] using ih (fun x hx => hpre x (by simp [hx]))

/-- C1: `switch_to_web` with an explicit context switches directly to it;
with no explicit context it is a no-op when the current context contains
"WEBVIEW", otherwise it switches to the first available context containing
"WEBVIEW", raising `NameError` when none exists. -/
theorem switch_to_web_spec (d : Driver) :
    (∀ x : String,
        switch_to_web d (Option.some x) = (Except.ok (), [Effect.switchToContext x])) ∧
    (strContains d.current_context "WEBVIEW" = true →
        switch_to_web d Option.none = (Except.ok (), [])) ∧
    (strContains d.current_context "WEBVIEW" = false →
      (∀ pre c post, d.contexts = pre ++ c :: post →
          (∀ x ∈ pre, strContains x "WEBVIEW" = false) →
          strContains c "WEBVIEW" = true →
          switch_to_web d Option.none = (Except.ok (), [Effect.switchToContext c])) ∧
      ((∀ x ∈ d.contexts, strContains x "WEBVIEW" = false) →
          switch_to_web d Option.none =
            (Except.error (PyError.nameError "No WebView found."), []))) := by
  refine ⟨fun x => rfl, fun hcur => by simp [switch_to_web, hcur], fun hcur => ⟨?_, ?_⟩⟩
  · intro pre c post hctx hpre hc
    have hfind : d.contexts.find? (fun x => strContains x "WEBVIEW") = Option.some c := by
      rw [hctx]; exact find?_first _ pre c post hpre hc
    simp [switch_to_web, hcur, hfind]
  · intro hall
    have hfind : d.contexts.find? (fun x => strContains x "WEBVIEW") = Option.none := by
      apply List.find?_eq_none.mpr
      intro x hx
      simp [hall x hx]
    simp [switch_to_web, hcur, hfind]

/-- C1 witness: on a concrete driver whose current context is native and whose
second available context is a WebView, `switch_to_web` with no explicit
context switches to that WebView context. -/
theorem switch_to_web_spec_witness :
    switch_to_web dEx Option.none =
      (Except.ok (), [Effect.switchToContext "WEBVIEW_com.example"]) :=
  (((switch_to_web_spec dEx).2.2 (by decide)).1 ["NATIVE_APP"] "WEBVIEW_com.example" []
    rfl (by decide) (by decide))

end Poium

namespace Poium

/-- C2: `top x y sec` issues exactly one pointer-input action sequence built,
in order, of move-to-(x,y), press down, a brief pause, release; performing it
is the only driver call, and it is followed by a sleep of the settle
duration `sec` before the method returns. -/
theorem top_spec (d : Driver) (x y : Int) (sec : ℚ) :
    top d x y sec =
      [Effect.performPointer POINTER_TOUCH "touch"
        [PointerAction.moveTo x y, PointerAction.down, PointerAction.pause (1/10),
         PointerAction.up],
       Effect.sleep sec] := rfl

/-- C3 counterexample: with width 800 and height 600, the wrapper does not
forward exactly the two arguments (800, 600) to the driver: the page object
itself is passed as an extra first positional argument (the source reads
`self.driver.set_window_size(self, width, height)`). -/
theorem set_window_size_bug :
    set_window_size dEx (Option.some 800) (Option.some 600) =
      [Effect.setWindowSize
        [SWSArg.pageObject, SWSArg.value (Option.some 800), SWSArg.value (Option.some 600)]] ∧
    set_window_size dEx (Option.some 800) (Option.some 600) ≠
      [Effect.setWindowSize
        [SWSArg.value (Option.some 800), SWSArg.value (Option.some 600)]] := by
  exact ⟨rfl, by decide⟩

/-- C4: `execute_script` raises `ValueError` (and issues no driver call)
exactly when the script argument is `None`; for a present script it forwards
the script and the remaining arguments to the driver and returns the driver's
value unchanged. -/
theorem execute_script_spec (d : Driver) (js : Option String) (args : List PyObj) :
    ((execute_script d js args).1 =
        Except.error (PyError.valueError "Please input js script") ↔ js = Option.none) ∧
    (js = Option.none → (execute_script d js args).2 = []) ∧
    (∀ s, js = Option.some s →
        execute_script d js args =
          (Except.ok (d.execResult s args), [Effect.executeScript s args])) := by
  refine ⟨?_, ?_, ?_⟩
  · cases js with
    | none => simp [execute_script]
    | some s => simp [execute_script]
  · intro h; subst h; rfl
  · intro s h; subst h; rfl

/-- C4 witness: a concrete script with one argument is forwarded unchanged and
the driver's value comes back. -/
theorem execute_script_spec_witness :
    execute_script dEx (Option.some "return document.title;") [PyObj.int 7] =
      (Except.ok PyObj.pyNone,
       [Effect.executeScript "return document.title;" [PyObj.int 7]]) :=
  (execute_script_spec dEx (Option.some "return document.title;") [PyObj.int 7]).2.2
    "return document.title;" rfl

/-- C5: `add_cookie` raises `TypeError` (issuing nothing) exactly when its
argument is not a dict, and forwards any dict argument unchanged to the
driver's `add_cookie`. -/
theorem add_cookie_spec (d : Driver) (a : PyArg) :
    ((add_cookie d a).1 = Except.error (PyError.typeError "Wrong cookie type.") ↔
        a.isDict = false) ∧
    (a.isDict = false → (add_cookie d a).2 = []) ∧
    (∀ e, a = PyArg.obj (PyObj.dict e) →
        add_cookie d a = (Except.ok (), [Effect.addCookie e])) := by
  refine ⟨?_, ?_, ?_⟩
  · cases a with
    | obj o => cases o <;> simp [add_cookie, PyArg.isDict, PyObj.isDict]
    | list xs => simp [add_cookie, PyArg.isDict]
  · cases a with
    | obj o => cases o <;> simp [add_cookie, PyArg.isDict, PyObj.isDict]
    | list xs => simp [add_cookie, PyArg.isDict]
  · intro e h; subst h; rfl

/-- C5 witness: a concrete cookie dict is forwarded unchanged. -/
theorem add_cookie_spec_witness :
    add_cookie dEx (PyArg.obj (PyObj.dict [("name", "foo"), ("value", "bar")])) =
      (Except.ok (), [Effect.addCookie [("name", "foo"), ("value", "bar")]]) :=
  (add_cookie_spec dEx (PyArg.obj (PyObj.dict [("name", "foo"), ("value", "bar")]))).2.2
    [("name", "foo"), ("value", "bar")] rfl

end Poium

namespace Poium

/-- The loop of `add_cookies` over a list whose elements are all dicts
forwards each one, in order. -/
theorem add_cookies_loop_dicts (d : Driver) (ds : List (List (String × String))) :
    add_cookies_loop d (ds.map PyObj.dict) =
      (Except.ok (), ds.map Effect.addCookie) := by
  induction ds with
  | nil => rfl
  | cons e es ih => simp [add_cookies_loop, add_cookie, ih]

/-- The loop of `add_cookies` stops at the first non-dict element with a
`TypeError`, after having forwarded all the dicts before it. -/
theorem add_cookies_loop_stops (d : Driver) (ds : List (List (String × String)))
    (bad : PyObj) (rest : List PyObj) (hbad : bad.isDict = false) :
    add_cookies_loop d (ds.map PyObj.dict ++ bad :: rest) =
      (Except.error (PyError.typeError "Wrong cookie type."), ds.map Effect.addCookie) := by
  induction ds with
  | nil =>
    cases bad <;> simp_all [add_cookies_loop, add_cookie, PyObj.isDict]
  | cons e es ih => simp [add_cookies_loop, add_cookie, ih]

/-- C6: `add_cookies` raises `TypeError` on a non-list argument; on a list it
adds the elements in order through `add_cookie`, so a list of dicts is
forwarded element by element in list order, and a list holding a non-dict
element raises `TypeError` from `add_cookie`. -/
theorem add_cookies_spec (d : Driver) (a : PyArg) :
    (a.isList = false →
        add_cookies d a = (Except.error (PyError.typeError "Wrong cookie type."), [])) ∧
    (∀ ds : List (List (String × String)), a = PyArg.list (ds.map PyObj.dict) →
        add_cookies d a = (Except.ok (), ds.map Effect.addCookie)) ∧
    (∀ (ds : List (List (String × String))) (bad : PyObj) (rest : List PyObj),
        a = PyArg.list (ds.map PyObj.dict ++ bad :: rest) →
        PyObj.isDict bad = false →
        (add_cookies d a).1 = Except.error (PyError.typeError "Wrong cookie type.")) := by
  refine ⟨?_, ?_, ?_⟩
  · intro h
    cases a with
    | obj o => rfl
    | list xs => simp [PyArg.isList] at h
  · intro ds h; subst h
    simpa [add_cookies] using add_cookies_loop_dicts d ds
  · intro ds bad rest h hbad; subst h
    simp [add_cookies, add_cookies_loop_stops d ds bad rest hbad]

/-- C6 witness: a two-element list of cookie dicts is forwarded in order. -/
theorem add_cookies_spec_witness :
    add_cookies dEx (PyArg.list [PyObj.dict [("name", "a")], PyObj.dict [("name", "b")]]) =
      (Except.ok (), [Effect.addCookie [("name", "a")], Effect.addCookie [("name", "b")]]) :=
  (add_cookies_spec dEx
      (PyArg.list [PyObj.dict [("name", "a")], PyObj.dict [("name", "b")]])).2.1
    [[("name", "a")], [("name", "b")]] rfl

/-- C9: `add_cookies` is not atomic on error: on a list of k dicts followed by
a non-dict element, those k cookies are already forwarded to the driver when
the `TypeError` is raised. -/
theorem add_cookies_not_atomic (d : Driver) (ds : List (List (String × String)))
    (bad : PyObj) (rest : List PyObj) (hbad : bad.isDict = false) :
    add_cookies d (PyArg.list (ds.map PyObj.dict ++ bad :: rest)) =
      (Except.error (PyError.typeError "Wrong cookie type."), ds.map Effect.addCookie) := by
  simp [add_cookies, add_cookies_loop_stops d ds bad rest hbad]

/-- C9 witness: two dicts followed by a string: both dicts reach the driver,
then the `TypeError` is raised. -/
theorem add_cookies_not_atomic_witness :
    add_cookies dEx
        (PyArg.list [PyObj.dict [("name", "a")], PyObj.dict [("name", "b")], PyObj.str "x"]) =
      (Except.error (PyError.typeError "Wrong cookie type."),
       [Effect.addCookie [("name", "a")], Effect.addCookie [("name", "b")]]) :=
  add_cookies_not_atomic dEx [[("name", "a")], [("name", "b")]] (PyObj.str "x") [] rfl

end Poium

namespace Poium

/-- C7: `alert_is_display` returns `False` exactly when the alert access
raises `NoAlertPresentException`, returns `True` when the access succeeds,
and propagates any other exception from the wrapped driver unchanged. -/
theorem alert_is_display_spec (d : Driver) :
    ((alert_is_display d).1 = Except.ok false ↔
        d.alertResult = Except.error PyError.noAlertPresent) ∧
    (∀ u : Unit, d.alertResult = Except.ok u →
        alert_is_display d = (Except.ok true, [Effect.alertAccess])) ∧
    (∀ e : PyError, e ≠ PyError.noAlertPresent → d.alertResult = Except.error e →
        alert_is_display d = (Except.error e, [Effect.alertAccess])) := by
  refine ⟨?_, ?_, ?_⟩
  · cases h : d.alertResult with
    | ok u => simp [alert_is_display, h]
    | error e => cases e <;> simp [alert_is_display, h]
  · intro u hu; simp [alert_is_display, hu]
  · intro e he hee
    cases e <;> simp_all [alert_is_display]

/-- C7 witness: a missing alert yields `False`; a generic driver error on the
alert access propagates unchanged. -/
theorem alert_is_display_spec_witness :
    (alert_is_display dEx).1 = Except.ok false ∧
    alert_is_display dExWde =
      (Except.error (PyError.webDriverError "boom"), [Effect.alertAccess]) :=
  ⟨(alert_is_display_spec dEx).1.mpr rfl,
   (alert_is_display_spec dExWde).2.2 (PyError.webDriverError "boom") (by decide) rfl⟩

/-- C8: `switch_to_app` and `switch_to_flutter` issue no driver call when the
current context already equals the target ("NATIVE_APP" resp. "FLUTTER"), and
otherwise issue exactly one switch to the target context. -/
theorem switch_context_idempotent (d : Driver) :
    (d.current_context = "NATIVE_APP" → switch_to_app d = []) ∧
    (d.current_context ≠ "NATIVE_APP" →
        switch_to_app d = [Effect.switchToContext "NATIVE_APP"]) ∧
    (d.current_context = "FLUTTER" → switch_to_flutter d = []) ∧
    (d.current_context ≠ "FLUTTER" →
        switch_to_flutter d = [Effect.switchToContext "FLUTTER"]) := by
  refine ⟨?_, ?_, ?_, ?_⟩ <;> intro h <;> simp [switch_to_app, switch_to_flutter, h]

/-- C8 witness: in the native context, `switch_to_app` is a no-op while
`switch_to_flutter` issues exactly one switch. -/
theorem switch_context_idempotent_witness :
    switch_to_app dEx = [] ∧
    switch_to_flutter dEx = [Effect.switchToContext "FLUTTER"] :=
  ⟨(switch_context_idempotent dEx).1 rfl,
   (switch_context_idempotent dEx).2.2.2 (by decide)⟩

/-- C10: `switch_to_window` raises `IndexError` and issues no switch whenever
the index is at least the number of window handles or below the negation of
that number; every in-range index, Python-style negative indices included,
switches to the handle at that position of the driver's handle list. -/
theorem switch_to_window_spec (d : Driver) (i : Int) :
    (((d.window_handles.length : Int) ≤ i ∨ i < -(d.window_handles.length : Int)) →
        switch_to_window d i = (Except.error PyError.indexError, [])) ∧
    (∀ h : String, 0 ≤ i → d.window_handles[i.toNat]? = Option.some h →
        switch_to_window d i = (Except.ok (), [Effect.switchToWindow h])) ∧
    (∀ h : String, i < 0 → 0 ≤ (d.window_handles.length : Int) + i →
        d.window_handles[((d.window_handles.length : Int) + i).toNat]? = Option.some h →
        switch_to_window d i = (Except.ok (), [Effect.switchToWindow h])) := by
  refine ⟨?_, ?_, ?_⟩
  · intro hout
    by_cases hi : 0 ≤ i
    · have hlen : (d.window_handles.length : Int) ≤ i := by omega
      have hnone : d.window_handles[i.toNat]? = (Option.none : Option String) := by
        apply List.getElem?_eq_none
        omega
      simp [switch_to_window, pyIndex, hi, hnone]
    · have hj : ¬ 0 ≤ (d.window_handles.length : Int) + i := by omega
      simp [switch_to_window, pyIndex, hi, hj]
  · intro h hi hget
    simp [switch_to_window, pyIndex, hi, hget]
  · intro h hi ht hget
    have hi2 : ¬ 0 ≤ i := by omega
    simp [switch_to_window, pyIndex, hi2, ht, hget]

/-- C10 witness: on three handles, index 1 switches to the second handle,
index -1 to the last, and index 3 raises `IndexError` with no switch. -/
theorem switch_to_window_spec_witness :
    switch_to_window dEx 1 = (Except.ok (), [Effect.switchToWindow "h1"]) ∧
    switch_to_window dEx (-1) = (Except.ok (), [Effect.switchToWindow "h2"]) ∧
    switch_to_window dEx 3 = (Except.error PyError.indexError, []) :=
  ⟨(switch_to_window_spec dEx 1).2.1 "h1" (by decide) rfl,
   (switch_to_window_spec dEx (-1)).2.2 "h2" (by decide) (by decide) rfl,
   (switch_to_window_spec dEx 3).1 (Or.inl (by decide))⟩

end Poium
